import Mathlib

/-
  Verification of src/text_analyzer.py.

  Shallow embedding: Python strings are modelled as `List Char` (`Str`),
  the external morphological analyzer (`MeCab.Tagger.parse`, a module-level
  handle `t`) is a parameter `parse : Str → Str`, and I/O side effects
  (print, word-cloud render, savefig, plt.show) are recorded as a list of
  `Effect` values.  Every string split in the source uses a single-character
  separator ("\n", "\t", "-", " "), so Python's `str.split(sep)` is embedded
  as `splitOnChar`.
-/

/- Python strings as lists of characters. -/
abbrev Str := List Char

/-- Python `s.split(sep)` for a single-character separator `sep`:
splits on every occurrence, keeping empty segments, and yields `[""]`
on the empty string.  Always returns a non-empty list. -/
def splitOnChar (c : Char) : Str → List Str
  | [] => [[]]
  | x :: xs =>
    if x = c then [] :: splitOnChar c xs
    else
      match splitOnChar c xs with
      | [] => [[x]]
      | y :: ys => (x :: y) :: ys

/-- Python `c in s` for a single-character needle: substring containment
of a one-character string is character membership. -/
def hasChar (c : Char) : Str → Bool
  | [] => false
  | x :: xs => x = c || hasChar c xs

/- The analyzer's end-of-output marker and the three part-of-speech labels
   (noun, verb, adjective in MeCab's native vocabulary), from lines 25 and 40
   of text_analyzer.py. -/
def EOSline : Str := "EOS".toList

def POS_NOUN : Str := "名詞".toList

def POS_VERB : Str := "動詞".toList

def POS_ADJ : Str := "形容詞".toList

/-- Lines 36-37 of text_analyzer.py:
`pos = pos_info.split("-")[0] if "-" in pos_info else pos_info`. -/
def posOf (pos_info : Str) : Str :=
  if hasChar '-' pos_info then (splitOnChar '-' pos_info).headD [] else pos_info

/-- The body of the inner `for line in lines` loop of `analyze_strings`
(lines 24-42 of text_analyzer.py): the words the loop appends for one
analyzer output line (either one word or none). -/
def processLine (line : Str) : List Str :=
  if line = EOSline ∨ line = [] then []
  else
    let parts := splitOnChar '\t' line
    if parts.length < 5 then []
    else
      let word := parts.headD []
      let pos_info := parts.getD 4 []
      let pos := posOf pos_info
      if pos ∈ [POS_NOUN, POS_VERB, POS_ADJ] then [word] else []

/-- `analyze_strings` (lines 11-44 of text_analyzer.py), with the module-level
analyzer handle `t` abstracted as the function `parse`.  The imperative loops
appending to `result_words` are embedded as left folds over the input strings
and over the lines of each parse output. -/
def analyze_strings (parse : Str → Str) (strings : List Str) : List Str :=
  strings.foldl
    (fun result_words text =>
      (splitOnChar '\n' (parse text)).foldl
        (fun acc line => acc ++ processLine line) result_words)
    []

example :
    analyze_strings (fun _ => "走る\t動詞\tA\tB\t動詞-一般\nEOS".toList)
      ["猫が走る".toList] = ["走る".toList] := by decide

example :
    analyze_strings (fun _ => "を\t助詞\tA\tB\t助詞\nEOS".toList)
      ["x".toList] = [] := by decide

/- ---------------------------------------------------------------------
   The word-cloud step (generate_wordcloud, lines 47-79) and the HTTP
   fetch step (fetch_texts, lines 82-88).
   --------------------------------------------------------------------- -/

/-- Python `" ".join(words)` and similar: join a list of strings with a
separator between consecutive elements. -/
def joinWith (sep : Str) : List Str → Str
  | [] => []
  | [w] => w
  | w :: ws => w ++ sep ++ joinWith sep ws

/-- Characters stripped by Python `str.strip()` with no argument: exactly the
characters for which `str.isspace()` is true, i.e. code points 0x09-0x0d
(tab, LF, VT, FF, CR), 0x1c-0x1f (file/group/record/unit separator), 0x20
(space), 0x85 (NEL), 0xa0 (no-break space), 0x1680 (Ogham space mark),
0x2000-0x200a (en quad .. hair space), 0x2028 (line separator), 0x2029
(paragraph separator), 0x202f (narrow no-break space), 0x205f (medium
mathematical space) and 0x3000 (ideographic space). -/
def isPySpace (c : Char) : Bool :=
  decide ((0x09 ≤ c.toNat ∧ c.toNat ≤ 0x0d) ∨ (0x1c ≤ c.toNat ∧ c.toNat ≤ 0x1f) ∨
    c.toNat = 0x20 ∨ c.toNat = 0x85 ∨ c.toNat = 0xa0 ∨ c.toNat = 0x1680 ∨
    (0x2000 ≤ c.toNat ∧ c.toNat ≤ 0x200a) ∨ c.toNat = 0x2028 ∨ c.toNat = 0x2029 ∨
    c.toNat = 0x202f ∨ c.toNat = 0x205f ∨ c.toNat = 0x3000)

/-- Python `s.strip()`: remove leading and trailing whitespace. -/
def pyStrip (s : Str) : Str :=
  ((s.dropWhile isPySpace).reverse.dropWhile isPySpace).reverse

/-- The keyword configuration passed to the `WordCloud(...)` constructor
on lines 62-69 of text_analyzer.py. -/
structure WordCloudConfig where
  width : Nat
  height : Nat
  background_color : Str
  max_words : Nat
  font_path : Str
  colormap : Str
deriving DecidableEq

/-- The constructor arguments exactly as written on lines 62-69:
width=1920, height=1080, background_color="white", max_words=100,
font_path="./fonts/NotoSansJP-Regular.ttf", colormap="viridis". -/
def wordcloudConfig : WordCloudConfig :=
  WordCloudConfig.mk 1920 1080 "white".toList 100
    "./fonts/NotoSansJP-Regular.ttf".toList "viridis".toList

/-- Observable side effects of the script: a `print`, the word-cloud render
(`WordCloud(...).generate(text)` with its configuration and the text blob),
the image write (`plt.savefig(output_path, ...)`), and the interactive
display (`plt.show()`). -/
inductive Effect where
  | print (msg : Str)
  | render (config : WordCloudConfig) (text : Str)
  | savefig (path : Str)
  | showPlot
deriving DecidableEq

/-- The message printed on line 58 when no words were extracted. -/
def noWordsMsg : Str := "抽出された単語がありません".toList

/-- The message printed on line 79 after saving the image. -/
def savedMsg (output_path : Str) : Str :=
  "ワードクラウドを ".toList ++ output_path ++ " に保存しました".toList

/-- `generate_wordcloud` (lines 47-79 of text_analyzer.py), returning the
list of side effects it performs in order.  `words = analyze_strings(strings)`;
`text = " ".join(words)`; `if not text.strip():` print and return; otherwise
render with `wordcloudConfig`, save to `output_path`, show, and print. -/
def generate_wordcloud (parse : Str → Str) (strings : List Str)
    (output_path : Str) : List Effect :=
  let words := analyze_strings parse strings
  let text := joinWith [' '] words
  if pyStrip text = [] then
    [Effect.print noWordsMsg]
  else
    [Effect.render wordcloudConfig text,
     Effect.savefig output_path,
     Effect.showPlot,
     Effect.print (savedMsg output_path)]

/-- JSON values, the possible results of Python `response.json()` when the
body is valid JSON. -/
inductive Json where
  | null
  | bool (b : Bool)
  | num (n : Int)
  | str (s : Str)
  | arr (elems : List Json)

/-- Whether a JSON value is an array of strings (the shape `fetch_texts` is
documented to expect but never checks). -/
def isStringArr : Json → Bool
  | Json.arr elems =>
    elems.all fun j =>
      match j with
      | Json.str _ => true
      | _ => false
  | _ => false

/-- An HTTP response as far as `fetch_texts` observes it: its status code
and the JSON value its body parses to. -/
structure Response where
  status_code : Nat
  json : Json

/-- The message printed on line 87 on a non-200 response. -/
def failMsg (url : Str) : Str :=
  "Failed to fetch data from ".toList ++ url

/-- `fetch_texts` (lines 82-88 of text_analyzer.py), with the network
abstracted as the `response` the GET on `url` produced: on status 200 return
`response.json()` (no effects), otherwise print the failure message and
return the empty list (embedded as the empty JSON array). -/
def fetch_texts (url : Str) (response : Response) : List Effect × Json :=
  if response.status_code = 200 then ([], response.json)
  else ([Effect.print (failMsg url)], Json.arr [])

example :
    generate_wordcloud (fun _ => "EOS".toList) ["x".toList] "wordcloud.png".toList
      = [Effect.print noWordsMsg] := by decide

/- A retained word that is the ideographic space U+3000: the joined text
strips to empty under str.strip(), so only the message is printed. -/
example :
    generate_wordcloud (fun _ => "　\tA\tB\tC\t動詞\nEOS".toList) ["x".toList]
      "wordcloud.png".toList = [Effect.print noWordsMsg] := by decide

/- ---------------------------------------------------------------------
   Helper lemmas.
   --------------------------------------------------------------------- -/

theorem splitOnChar_ne_nil (c : Char) (s : Str) : splitOnChar c s ≠ [] := by
  cases s with
  | nil => simp [splitOnChar]
  | cons x xs =>
    simp only [splitOnChar]
    split
    · simp
    · split <;> simp

/-- If a string contains no occurrence of `c`, splitting on `c` returns the
string as a single segment. -/
theorem splitOnChar_eq_single (c : Char) (s : Str) (h : hasChar c s = false) :
    splitOnChar c s = [s] := by
  induction s with
  | nil => rfl
  | cons x xs ih =>
    simp only [hasChar, Bool.or_eq_false_iff, decide_eq_false_iff_not] at h
    simp only [splitOnChar, if_neg h.1, ih h.2]

/-- The conditional part-of-speech extraction of lines 36-37 always equals
the head of the hyphen split. -/
theorem posOf_eq_headD (s : Str) :
    posOf s = (splitOnChar '-' s).headD [] := by
  unfold posOf
  split
  · rfl
  · rename_i h
    rw [splitOnChar_eq_single '-' s (by revert h; cases hasChar '-' s <;> simp)]
    rfl

/-- Concatenation of the images of a list's elements, in encounter order:
the shape of a loop that appends to an accumulator. -/
def catMap (f : α → List β) : List α → List β
  | [] => []
  | x :: xs => f x ++ catMap f xs

theorem foldl_append_eq_catMap (f : α → List β) :
    ∀ (l : List α) (a : List β),
      l.foldl (fun acc x => acc ++ f x) a = a ++ catMap f l := by
  intro l
  induction l with
  | nil => intro a; simp [catMap]
  | cons x xs ih => intro a; simp [catMap, ih, List.append_assoc]

theorem catMap_append (f : α → List β) (l₁ l₂ : List α) :
    catMap f (l₁ ++ l₂) = catMap f l₁ ++ catMap f l₂ := by
  induction l₁ with
  | nil => simp [catMap]
  | cons x xs ih => simp [catMap, ih]

theorem mem_catMap {f : α → List β} {b : β} {l : List α} :
    b ∈ catMap f l ↔ ∃ a ∈ l, b ∈ f a := by
  induction l with
  | nil => simp [catMap]
  | cons x xs ih => simp [catMap, ih]

/-- `analyze_strings` in closed form: concatenate, over the input strings in
order, the words produced by each line of each string's parse output. -/
theorem analyze_strings_eq (parse : Str → Str) (strings : List Str) :
    analyze_strings parse strings
      = catMap (fun text => catMap processLine (splitOnChar '\n' (parse text)))
          strings := by
  unfold analyze_strings
  have hinner :
      (fun (result_words : List Str) (text : Str) =>
        (splitOnChar '\n' (parse text)).foldl
          (fun acc line => acc ++ processLine line) result_words)
      = fun result_words text =>
          result_words ++ catMap processLine (splitOnChar '\n' (parse text)) := by
    funext result_words text
    exact foldl_append_eq_catMap processLine _ result_words
  rw [hinner, foldl_append_eq_catMap
    (fun text => catMap processLine (splitOnChar '\n' (parse text))) strings []]
  simp

/-- Membership in the words of a single analyzer output line, spelled out as
the retention conditions of lines 25-42. -/
theorem mem_processLine {line w : Str} :
    w ∈ processLine line ↔
      line ≠ EOSline ∧ line ≠ [] ∧
      5 ≤ (splitOnChar '\t' line).length ∧
      posOf ((splitOnChar '\t' line).getD 4 []) ∈ [POS_NOUN, POS_VERB, POS_ADJ] ∧
      w = (splitOnChar '\t' line).headD [] := by
  unfold processLine
  split
  · rename_i h
    simp only [List.not_mem_nil, false_iff]
    intro hc
    exact absurd h (by push_neg; exact ⟨hc.1, hc.2.1⟩)
  · rename_i h
    push_neg at h
    dsimp only
    split
    · rename_i hlen
      simp only [List.not_mem_nil, false_iff]
      intro hc
      omega
    · rename_i hlen
      split
      · rename_i hpos
        simp only [List.mem_singleton]
        constructor
        · intro hw
          exact ⟨h.1, h.2, by omega, hpos, hw⟩
        · intro hc
          exact hc.2.2.2.2
      · rename_i hpos
        simp only [List.not_mem_nil, false_iff]
        intro hc
        exact hpos hc.2.2.2.1

theorem dropWhile_eq_nil_of_all {p : α → Bool} {l : List α} (h : l.all p = true) :
    l.dropWhile p = [] := by
  induction l with
  | nil => rfl
  | cons x xs ih =>
    simp only [List.all_cons, Bool.and_eq_true] at h
    simp [List.dropWhile_cons, h.1, ih h.2]

theorem pyStrip_eq_nil_of_all {s : Str} (h : s.all isPySpace = true) :
    pyStrip s = [] := by
  unfold pyStrip
  rw [dropWhile_eq_nil_of_all h]
  rfl

/- ---------------------------------------------------------------------
   Claims.
   --------------------------------------------------------------------- -/

/-- Claim C1: a word is retained by analyze_strings iff some input string's
analyzer output has a line that is not the end-of-output marker, not blank,
has at least 5 tab-separated fields, and whose field 4's first
hyphen-delimited segment is one of 名詞 (noun), 動詞 (verb), 形容詞
(adjective); the retained word is field 0 of that line. -/
theorem C1_retained_iff (parse : Str → Str) (strings : List Str) (w : Str) :
    w ∈ analyze_strings parse strings ↔
      ∃ text ∈ strings, ∃ line ∈ splitOnChar '\n' (parse text),
        line ≠ EOSline ∧ line ≠ [] ∧
        5 ≤ (splitOnChar '\t' line).length ∧
        (splitOnChar '-' ((splitOnChar '\t' line).getD 4 [])).headD []
          ∈ [POS_NOUN, POS_VERB, POS_ADJ] ∧
        w = (splitOnChar '\t' line).headD [] := by
  rw [analyze_strings_eq]
  simp only [mem_catMap, mem_processLine, posOf_eq_headD]

/-- Claim C2: on any response whose status code is not 200, fetch_texts
prints the failure message and returns the empty list. -/
theorem C2_non200_empty (url : Str) (response : Response)
    (h : response.status_code ≠ 200) :
    fetch_texts url response = ([Effect.print (failMsg url)], Json.arr []) := by
  unfold fetch_texts
  rw [if_neg h]

theorem C2_witness :
    (Response.mk 404 Json.null).status_code ≠ 200 ∧
      fetch_texts "http://example".toList (Response.mk 404 Json.null)
        = ([Effect.print (failMsg "http://example".toList)], Json.arr []) :=
  ⟨by decide, C2_non200_empty "http://example".toList (Response.mk 404 Json.null)
    (by decide)⟩

/-- Claim C3: if the post-filter word set produced by analyze_strings is
empty, generate_wordcloud only prints a message: it performs no render, no
savefig and no show, so nothing is written to output_path. -/
theorem C3_empty_words_no_file (parse : Str → Str) (strings : List Str)
    (output_path : Str) (h : analyze_strings parse strings = []) :
    generate_wordcloud parse strings output_path = [Effect.print noWordsMsg] := by
  unfold generate_wordcloud
  rw [h]
  rfl

theorem C3_witness :
    analyze_strings (fun _ => "EOS".toList) ["x".toList] = [] ∧
      generate_wordcloud (fun _ => "EOS".toList) ["x".toList] "wordcloud.png".toList
        = [Effect.print noWordsMsg] :=
  ⟨by decide, C3_empty_words_no_file (fun _ => "EOS".toList) ["x".toList]
    "wordcloud.png".toList (by decide)⟩

/-- Claim C4: a tab-delimited line with fewer than 5 fields contributes no
word (the loop body yields nothing on it), and consequently every word in the
result of analyze_strings originates from a line with at least 5 fields. -/
theorem C4_short_lines_excluded :
    (∀ line : Str, (splitOnChar '\t' line).length < 5 → processLine line = []) ∧
    (∀ (parse : Str → Str) (strings : List Str) (w : Str),
      w ∈ analyze_strings parse strings →
        ∃ text ∈ strings, ∃ line ∈ splitOnChar '\n' (parse text),
          5 ≤ (splitOnChar '\t' line).length ∧ w ∈ processLine line) := by
  constructor
  · intro line h
    unfold processLine
    split
    · rfl
    · dsimp only
      rw [if_pos h]
  · intro parse strings w hw
    rw [analyze_strings_eq, mem_catMap] at hw
    obtain ⟨text, htext, hw⟩ := hw
    rw [mem_catMap] at hw
    obtain ⟨line, hline, hw⟩ := hw
    have hlen := (mem_processLine.mp hw).2.2.1
    exact ⟨text, htext, line, hline, hlen, hw⟩

theorem C4_witness :
    (splitOnChar '\t' "a\tb".toList).length < 5 ∧
      processLine "a\tb".toList = [] :=
  ⟨by decide, C4_short_lines_excluded.1 "a\tb".toList (by decide)⟩

/-- Claim C5: analyze_strings is a list homomorphism over its input: analyzing
a concatenation equals the concatenation of the analyses, so retained words
appear in encounter order. -/
theorem C5_append_hom (parse : Str → Str) (xs ys : List Str) :
    analyze_strings parse (xs ++ ys)
      = analyze_strings parse xs ++ analyze_strings parse ys := by
  simp [analyze_strings_eq, catMap_append]

/-- Claim C6: for the input ["猫が走る"], if the analyzer output contains a
line with at least 5 tab-separated fields whose field 0 is 走る and whose
field 4 has first hyphen-delimited segment 動詞, then analyze_strings retains
走る. -/
theorem C6_example_verb_retained (parse : Str → Str) (line : Str)
    (hmem : line ∈ splitOnChar '\n' (parse "猫が走る".toList))
    (hlen : 5 ≤ (splitOnChar '\t' line).length)
    (hword : (splitOnChar '\t' line).headD [] = "走る".toList)
    (hpos : (splitOnChar '-' ((splitOnChar '\t' line).getD 4 [])).headD []
      = POS_VERB) :
    "走る".toList ∈ analyze_strings parse ["猫が走る".toList] := by
  rw [analyze_strings_eq, mem_catMap]
  refine ⟨"猫が走る".toList, by simp, ?_⟩
  rw [mem_catMap]
  refine ⟨line, hmem, ?_⟩
  rw [mem_processLine]
  have hne1 : line ≠ EOSline := by
    rintro rfl
    exact absurd hlen (by decide)
  have hne2 : line ≠ [] := by
    rintro rfl
    exact absurd hlen (by decide)
  refine ⟨hne1, hne2, hlen, ?_, hword.symm⟩
  rw [posOf_eq_headD, hpos]
  simp

def parse6 : Str → Str := fun _ => "走る\t動詞\tA\tB\t動詞-一般\nEOS".toList

def line6 : Str := "走る\t動詞\tA\tB\t動詞-一般".toList

theorem C6_witness :
    line6 ∈ splitOnChar '\n' (parse6 "猫が走る".toList) ∧
    5 ≤ (splitOnChar '\t' line6).length ∧
    (splitOnChar '\t' line6).headD [] = "走る".toList ∧
    (splitOnChar '-' ((splitOnChar '\t' line6).getD 4 [])).headD [] = POS_VERB ∧
    "走る".toList ∈ analyze_strings parse6 ["猫が走る".toList] :=
  ⟨by decide, by decide, by decide, by decide,
   C6_example_verb_retained parse6 line6 (by decide) (by decide) (by decide)
     (by decide)⟩

/- An analyzer whose only retained word is the single space character " "
(field 0 of a 5-field line tagged 動詞). -/
def wsParse : Str → Str := fun _ => " \tA\tB\tC\t動詞\nEOS".toList

/-- Claim C7 counterexample: the filtered word list [" "] is non-empty, yet
generate_wordcloud only prints the no-words message and issues no render and
no savefig, because the space-joined text strips to empty. -/
theorem C7_counterexample :
    analyze_strings wsParse ["x".toList] = [" ".toList] ∧
      generate_wordcloud wsParse ["x".toList] "wordcloud.png".toList
        = [Effect.print noWordsMsg] :=
  ⟨by decide, by decide⟩

/-- Claim C7 (amended): whenever the space-joined filtered text does not strip
to empty, generate_wordcloud renders exactly the words joined with single
spaces, configured with width 1920, height 1080 and a 100-word cap, then
saves to output_path, shows the plot and prints the saved message. -/
theorem C7_render_config (parse : Str → Str) (strings : List Str)
    (output_path : Str)
    (h : pyStrip (joinWith [' '] (analyze_strings parse strings)) ≠ []) :
    generate_wordcloud parse strings output_path
      = [Effect.render wordcloudConfig
            (joinWith [' '] (analyze_strings parse strings)),
         Effect.savefig output_path, Effect.showPlot,
         Effect.print (savedMsg output_path)]
      ∧ wordcloudConfig.width = 1920 ∧ wordcloudConfig.height = 1080
      ∧ wordcloudConfig.max_words = 100 := by
  refine ⟨?_, rfl, rfl, rfl⟩
  unfold generate_wordcloud
  dsimp only
  rw [if_neg h]

def parse7 : Str → Str := fun _ => "犬\t名詞\tA\tB\t名詞-普通名詞\nEOS".toList

theorem C7_witness :
    pyStrip (joinWith [' '] (analyze_strings parse7 ["犬".toList])) ≠ [] ∧
      (generate_wordcloud parse7 ["犬".toList] "wordcloud.png".toList
        = [Effect.render wordcloudConfig
              (joinWith [' '] (analyze_strings parse7 ["犬".toList])),
           Effect.savefig "wordcloud.png".toList, Effect.showPlot,
           Effect.print (savedMsg "wordcloud.png".toList)]
        ∧ wordcloudConfig.width = 1920 ∧ wordcloudConfig.height = 1080
        ∧ wordcloudConfig.max_words = 100) :=
  ⟨by decide, C7_render_config parse7 ["犬".toList] "wordcloud.png".toList
    (by decide)⟩

/-- The part-of-speech extraction as the spec words it: unconditionally take
the first element of the hyphen split. -/
def posOfSpec (s : Str) : Str := (splitOnChar '-' s).headD []

/-- Claim C8: the source's conditional extraction (first hyphen segment when a
hyphen is present, the whole descriptor otherwise) equals the unconditional
first element of the hyphen split, for every string. -/
theorem C8_posOf_eq_posOfSpec (s : Str) : posOf s = posOfSpec s :=
  posOf_eq_headD s

/-- Claim C9: on a 200 response fetch_texts returns the parsed JSON body
unchanged, with no effects and no validation of its shape. -/
theorem C9_returns_json_unvalidated (url : Str) (response : Response)
    (h : response.status_code = 200) :
    fetch_texts url response = ([], response.json) := by
  unfold fetch_texts
  rw [if_pos h]

theorem C9_witness :
    (Response.mk 200 (Json.num 42)).status_code = 200 ∧
    isStringArr (Json.num 42) = false ∧
    fetch_texts "u".toList (Response.mk 200 (Json.num 42)) = ([], Json.num 42) :=
  ⟨rfl, rfl, C9_returns_json_unvalidated "u".toList (Response.mk 200 (Json.num 42))
    rfl⟩

/-- Claim C10: generate_wordcloud skips rendering whenever the space-joined
word text consists only of whitespace characters, a condition strictly
broader than the word list being empty. -/
theorem C10_whitespace_only_skips (parse : Str → Str) (strings : List Str)
    (output_path : Str)
    (h : (joinWith [' '] (analyze_strings parse strings)).all isPySpace = true) :
    generate_wordcloud parse strings output_path = [Effect.print noWordsMsg] := by
  unfold generate_wordcloud
  dsimp only
  rw [if_pos (pyStrip_eq_nil_of_all h)]

theorem C10_witness :
    analyze_strings wsParse ["x".toList] ≠ [] ∧
    (joinWith [' '] (analyze_strings wsParse ["x".toList])).all isPySpace = true ∧
    generate_wordcloud wsParse ["x".toList] "wordcloud.png".toList
      = [Effect.print noWordsMsg] :=
  ⟨by decide, by decide, C10_whitespace_only_skips wsParse ["x".toList]
    "wordcloud.png".toList (by decide)⟩
